import Mathlib

/-!
Verification of the KTBB SSE engine (sse_engine.py): a shallow embedding of
the deterministic level engine over exact rationals.  Python floats are
modelled as ℚ and Python's round(x, 1) as decimal rounding with ties to even.
-/

namespace KTBB

/-- Timeframe tag for the four-hour shelf, the string used by the engine. -/
def TF_4H : String := "4H"

/-- Timeframe tag for the one-hour shelf. -/
def TF_1H : String := "1H"

/-- Role tag for supply/resistance scoring. -/
def ROLE_RESISTANCE : String := "resistance"

/-- Role tag for demand/support scoring. -/
def ROLE_SUPPORT : String := "support"

/-- Round a rational to the nearest integer, ties to even (Python's rounding). -/
def roundHalfEven (x : ℚ) : ℤ :=
  let n := ⌊x⌋
  let r := x - n
  if r < 1/2 then n
  else if 1/2 < r then n + 1
  else if Even n then n else n + 1

/-- Python's round(x, 1): round to one decimal place, ties to even. -/
def round1 (x : ℚ) : ℚ :=
  ((roundHalfEven (x * 10) : ℤ) : ℚ) / 10

/-- sse_engine.py lines 32-35: relative difference |a-b| / denom where
denom is |b| when |b| > 1e-9 and 1.0 otherwise. -/
def pct_diff (a b : ℚ) : ℚ :=
  let denom := if |b| > 1/1000000000 then |b| else 1
  |a - b| / denom

/-- The minimum percentage distance of a level to the four role-dependent
reference marks (sse_engine.py lines 59-66; Python's min over the generator
folds from the left). -/
def min_pct (level : ℚ) (role : String)
    (weekly_val weekly_poc weekly_vah f24_val f24_poc f24_vah : ℚ) : ℚ :=
  if role == ROLE_RESISTANCE then
    min (min (min (pct_diff level weekly_vah) (pct_diff level weekly_poc))
      (pct_diff level f24_vah)) (pct_diff level f24_poc)
  else
    min (min (min (pct_diff level weekly_val) (pct_diff level weekly_poc))
      (pct_diff level f24_val)) (pct_diff level f24_poc)

/-- sse_engine.py lines 38-72: FRVP alignment score in {0, 1, 2}. -/
def frvp_alignment (level : ℚ) (role : String)
    (weekly_val weekly_poc weekly_vah f24_val f24_poc f24_vah : ℚ) : ℤ :=
  let m := min_pct level role weekly_val weekly_poc weekly_vah f24_val f24_poc f24_vah
  if m ≤ 0.0015 then 2
  else if m ≤ 0.0030 then 1
  else 0

/-- sse_engine.py lines 104-125: the shelf strength before the final
one-decimal rounding (raw score scaled by 10/12 and clamped to [0, 10]). -/
def htf_strength_unrounded (level : ℚ) (tf role : String)
    (weekly_val weekly_poc weekly_vah f24_val f24_poc f24_vah : ℚ) : ℚ :=
  let touches : ℤ := 1
  let volume_rating : ℤ := 1
  let frvp_align := frvp_alignment level role weekly_val weekly_poc weekly_vah f24_val f24_poc f24_vah
  let structural_tag : ℤ := if tf == TF_4H then 1 else 0
  let raw : ℤ := 3 * touches + 2 * volume_rating + 2 * frvp_align + 1 * structural_tag
  max 0 (min 10 ((raw : ℚ) * (10 / 12)))

/-- sse_engine.py lines 75-126: HTF shelf strength, rounded to one decimal. -/
def htf_strength (level : ℚ) (tf role : String)
    (weekly_val weekly_poc weekly_vah f24_val f24_poc f24_vah : ℚ) : ℚ :=
  round1 (htf_strength_unrounded level tf role weekly_val weekly_poc weekly_vah f24_val f24_poc f24_vah)

/-- One HTF shelf record as emitted by the engine. -/
structure Shelf where
  tf : String
  level : ℚ
  strength : ℚ
  primary : Bool
  deriving DecidableEq

/-- Strength of the 4H demand shelf under role support (lines 151-161). -/
def s4h_strength (h4_demand weekly_val weekly_poc weekly_vah f24_val f24_poc f24_vah : ℚ) : ℚ :=
  htf_strength h4_demand TF_4H ROLE_SUPPORT weekly_val weekly_poc weekly_vah f24_val f24_poc f24_vah

/-- Strength of the 1H demand shelf under role support (lines 162-172). -/
def s1h_strength (h1_demand weekly_val weekly_poc weekly_vah f24_val f24_poc f24_vah : ℚ) : ℚ :=
  htf_strength h1_demand TF_1H ROLE_SUPPORT weekly_val weekly_poc weekly_vah f24_val f24_poc f24_vah

/-- Strength of the 4H supply shelf under role resistance (lines 197-207). -/
def r4h_strength (h4_supply weekly_val weekly_poc weekly_vah f24_val f24_poc f24_vah : ℚ) : ℚ :=
  htf_strength h4_supply TF_4H ROLE_RESISTANCE weekly_val weekly_poc weekly_vah f24_val f24_poc f24_vah

/-- Strength of the 1H supply shelf under role resistance (lines 208-218). -/
def r1h_strength (h1_supply weekly_val weekly_poc weekly_vah f24_val f24_poc f24_vah : ℚ) : ℚ :=
  htf_strength h1_supply TF_1H ROLE_RESISTANCE weekly_val weekly_poc weekly_vah f24_val f24_poc f24_vah

/-- Which timeframe wins the support side (lines 174-179, the comparison is ≥). -/
def primary_support_tf (h4_demand h1_demand weekly_val weekly_poc weekly_vah f24_val f24_poc f24_vah : ℚ) : String :=
  if s4h_strength h4_demand weekly_val weekly_poc weekly_vah f24_val f24_poc f24_vah ≥
      s1h_strength h1_demand weekly_val weekly_poc weekly_vah f24_val f24_poc f24_vah
  then TF_4H else TF_1H

/-- The strength-selected daily support before the safety fallback (lines 174-179). -/
def pre_daily_support (h4_demand h1_demand weekly_val weekly_poc weekly_vah f24_val f24_poc f24_vah : ℚ) : ℚ :=
  if s4h_strength h4_demand weekly_val weekly_poc weekly_vah f24_val f24_poc f24_vah ≥
      s1h_strength h1_demand weekly_val weekly_poc weekly_vah f24_val f24_poc f24_vah
  then h4_demand else h1_demand

/-- Which timeframe wins the resistance side (lines 220-225). -/
def primary_res_tf (h4_supply h1_supply weekly_val weekly_poc weekly_vah f24_val f24_poc f24_vah : ℚ) : String :=
  if r4h_strength h4_supply weekly_val weekly_poc weekly_vah f24_val f24_poc f24_vah ≥
      r1h_strength h1_supply weekly_val weekly_poc weekly_vah f24_val f24_poc f24_vah
  then TF_4H else TF_1H

/-- The strength-selected daily resistance before the safety fallback (lines 220-225). -/
def pre_daily_resistance (h4_supply h1_supply weekly_val weekly_poc weekly_vah f24_val f24_poc f24_vah : ℚ) : ℚ :=
  if r4h_strength h4_supply weekly_val weekly_poc weekly_vah f24_val f24_poc f24_vah ≥
      r1h_strength h1_supply weekly_val weekly_poc weekly_vah f24_val f24_poc f24_vah
  then h4_supply else h1_supply

/-- The two support shelf records, fixed order [4H, 1H] (lines 181-194). -/
def htf_support_shelves (h4_demand h1_demand weekly_val weekly_poc weekly_vah f24_val f24_poc f24_vah : ℚ) : List Shelf :=
  [⟨TF_4H, h4_demand,
      s4h_strength h4_demand weekly_val weekly_poc weekly_vah f24_val f24_poc f24_vah,
      primary_support_tf h4_demand h1_demand weekly_val weekly_poc weekly_vah f24_val f24_poc f24_vah == TF_4H⟩,
   ⟨TF_1H, h1_demand,
      s1h_strength h1_demand weekly_val weekly_poc weekly_vah f24_val f24_poc f24_vah,
      primary_support_tf h4_demand h1_demand weekly_val weekly_poc weekly_vah f24_val f24_poc f24_vah == TF_1H⟩]

/-- The two resistance shelf records, fixed order [4H, 1H] (lines 227-240). -/
def htf_resistance_shelves (h4_supply h1_supply weekly_val weekly_poc weekly_vah f24_val f24_poc f24_vah : ℚ) : List Shelf :=
  [⟨TF_4H, h4_supply,
      r4h_strength h4_supply weekly_val weekly_poc weekly_vah f24_val f24_poc f24_vah,
      primary_res_tf h4_supply h1_supply weekly_val weekly_poc weekly_vah f24_val f24_poc f24_vah == TF_4H⟩,
   ⟨TF_1H, h1_supply,
      r1h_strength h1_supply weekly_val weekly_poc weekly_vah f24_val f24_poc f24_vah,
      primary_res_tf h4_supply h1_supply weekly_val weekly_poc weekly_vah f24_val f24_poc f24_vah == TF_1H⟩]

/-- sse_engine.py lines 129-248: select the daily band; if the strength-based
selection is inverted (support ≥ resistance) fall back to min demand / max
supply for the final levels only. -/
def choose_daily_levels (h4_supply h4_demand h1_supply h1_demand
    weekly_val weekly_poc weekly_vah f24_val f24_poc f24_vah : ℚ) :
    ℚ × ℚ × List Shelf × List Shelf :=
  let daily_support := pre_daily_support h4_demand h1_demand weekly_val weekly_poc weekly_vah f24_val f24_poc f24_vah
  let daily_resistance := pre_daily_resistance h4_supply h1_supply weekly_val weekly_poc weekly_vah f24_val f24_poc f24_vah
  let htf_resistance := htf_resistance_shelves h4_supply h1_supply weekly_val weekly_poc weekly_vah f24_val f24_poc f24_vah
  let htf_support := htf_support_shelves h4_demand h1_demand weekly_val weekly_poc weekly_vah f24_val f24_poc f24_vah
  if daily_support ≥ daily_resistance then
    (min h4_demand h1_demand, max h4_supply h1_supply, htf_resistance, htf_support)
  else
    (daily_support, daily_resistance, htf_resistance, htf_support)

/-- sse_engine.py line 279: the band span floored at 1.0. -/
def span_of (daily_support daily_resistance : ℚ) : ℚ :=
  max (daily_resistance - daily_support) 1

/-- sse_engine.py line 301: minimum gap from the band edges. -/
def min_gap_from_edges (daily_support daily_resistance : ℚ) : ℚ :=
  max (span_of daily_support daily_resistance * 0.05) (daily_support * 0.0015)

/-- sse_engine.py lines 251-323: build (breakdown, breakout) triggers by
edge push, recentering and a final hard clamp.  Sequential reassignments of
the Python locals appear as numbered stages. -/
def build_triggers (daily_support daily_resistance h4_supply h4_demand h1_supply h1_demand
    f24_val f24_poc f24_vah morn_val morn_poc morn_vah r30_high r30_low : ℚ) : ℚ × ℚ :=
  let breakout_candidate :=
    max (max (max (max (max h1_supply h4_supply) f24_vah) f24_poc) morn_vah) r30_high
  let breakdown_candidate :=
    min (min (min (min (min h1_demand h4_demand) f24_val) f24_poc) morn_val) r30_low
  let min_gap := min_gap_from_edges daily_support daily_resistance
  let breakdown1 := if breakdown_candidate ≤ daily_support + min_gap
    then daily_support + min_gap else breakdown_candidate
  let breakout1 := if breakout_candidate ≥ daily_resistance - min_gap
    then daily_resistance - min_gap else breakout_candidate
  let mid := (daily_support + daily_resistance) / 2
  let breakdown2 := if breakout1 ≤ breakdown1 + min_gap then mid - min_gap / 2 else breakdown1
  let breakout2 := if breakout1 ≤ breakdown1 + min_gap then mid + min_gap / 2 else breakout1
  let breakdown3 := max (daily_support + min_gap) (min breakdown2 (daily_resistance - 2 * min_gap))
  let breakout3 := max (breakdown3 + min_gap) (min breakout2 (daily_resistance - min_gap))
  (breakdown3, breakout3)

/-- The structured result of compute_dm_levels. -/
structure EngineOutput where
  daily_support : ℚ
  daily_resistance : ℚ
  breakout_trigger : ℚ
  breakdown_trigger : ℚ
  htf_resistance : List Shelf
  htf_support : List Shelf
  deriving DecidableEq

/-- sse_engine.py lines 330-406: the public entry point. -/
def compute_dm_levels (h4_supply h4_demand h1_supply h1_demand
    weekly_val weekly_poc weekly_vah f24_val f24_poc f24_vah
    morn_val morn_poc morn_vah r30_high r30_low : ℚ) : EngineOutput :=
  let sel := choose_daily_levels h4_supply h4_demand h1_supply h1_demand
    weekly_val weekly_poc weekly_vah f24_val f24_poc f24_vah
  let trig := build_triggers sel.1 sel.2.1 h4_supply h4_demand h1_supply h1_demand
    f24_val f24_poc f24_vah morn_val morn_poc morn_vah r30_high r30_low
  { daily_support := round1 sel.1
    daily_resistance := round1 sel.2.1
    breakout_trigger := round1 trig.2
    breakdown_trigger := round1 trig.1
    htf_resistance := sel.2.2.1
    htf_support := sel.2.2.2 }

/-! ### Helper lemmas -/

lemma roundHalfEven_le (x : ℚ) : (roundHalfEven x : ℚ) ≤ x + 1/2 := by
  unfold roundHalfEven
  have h1 : ((⌊x⌋ : ℤ) : ℚ) ≤ x := Int.floor_le x
  have h2 : x < ((⌊x⌋ : ℤ) : ℚ) + 1 := Int.lt_floor_add_one x
  dsimp only
  split_ifs <;> push_cast <;> linarith

lemma le_roundHalfEven (x : ℚ) : x - 1/2 ≤ (roundHalfEven x : ℚ) := by
  unfold roundHalfEven
  have h1 : ((⌊x⌋ : ℤ) : ℚ) ≤ x := Int.floor_le x
  have h2 : x < ((⌊x⌋ : ℤ) : ℚ) + 1 := Int.lt_floor_add_one x
  dsimp only
  split_ifs <;> push_cast <;> linarith

lemma round1_lt_round1 {a b : ℚ} (h : a + 1/10 < b) : round1 a < round1 b := by
  unfold round1
  have h1 := roundHalfEven_le (a * 10)
  have h2 := le_roundHalfEven (b * 10)
  have h3 : (roundHalfEven (a * 10) : ℚ) < (roundHalfEven (b * 10) : ℚ) := by linarith
  linarith

lemma min_gap_ge (s r : ℚ) : 1/20 ≤ min_gap_from_edges s r := by
  unfold min_gap_from_edges span_of
  have h1 : (1 : ℚ) ≤ max (r - s) 1 := le_max_right _ _
  refine le_trans ?_ (le_max_left _ _)
  nlinarith

lemma pct_diff_big (a b : ℚ) (hb : |b| > 1/1000000000) : pct_diff a b = |a - b| / |b| := by
  unfold pct_diff
  rw [if_pos hb]

lemma pct_diff_small (a b : ℚ) (hb : ¬ (|b| > 1/1000000000)) : pct_diff a b = |a - b| := by
  unfold pct_diff
  rw [if_neg hb, div_one]

/-- The shape of the trigger builder's result: both components are the final
hard clamps of line 320-321, for some intermediate candidates x and y. -/
lemma build_triggers_spec (s r h4s h4d h1s h1d fv fp fvh mv mp mvh rh rl : ℚ) :
    ∃ x y, build_triggers s r h4s h4d h1s h1d fv fp fvh mv mp mvh rh rl =
      (max (s + min_gap_from_edges s r) (min x (r - 2 * min_gap_from_edges s r)),
       max (max (s + min_gap_from_edges s r) (min x (r - 2 * min_gap_from_edges s r)) + min_gap_from_edges s r)
         (min y (r - min_gap_from_edges s r))) := by
  unfold build_triggers
  exact ⟨_, _, rfl⟩

/-- The shelf records returned by selection are the same in both branches of
the safety fallback. -/
lemma choose_shelves_eq (h4s h4d h1s h1d wv wp wvh fv fp fvh : ℚ) :
    (choose_daily_levels h4s h4d h1s h1d wv wp wvh fv fp fvh).2.2.1 =
      htf_resistance_shelves h4s h1s wv wp wvh fv fp fvh ∧
    (choose_daily_levels h4s h4d h1s h1d wv wp wvh fv fp fvh).2.2.2 =
      htf_support_shelves h4d h1d wv wp wvh fv fp fvh := by
  unfold choose_daily_levels
  dsimp only
  split_ifs <;> exact ⟨rfl, rfl⟩

lemma frvp_alignment_mem (level : ℚ) (role : String) (wv wp wvh fv fp fvh : ℚ) :
    frvp_alignment level role wv wp wvh fv fp fvh = 0 ∨
    frvp_alignment level role wv wp wvh fv fp fvh = 1 ∨
    frvp_alignment level role wv wp wvh fv fp fvh = 2 := by
  unfold frvp_alignment
  dsimp only
  split_ifs <;> simp

/-- The clamp to [0, 10] inside the strength scorer is never active with the
fixed placeholder factors. -/
lemma htf_strength_unrounded_eq (level : ℚ) (tf role : String) (wv wp wvh fv fp fvh : ℚ) :
    htf_strength_unrounded level tf role wv wp wvh fv fp fvh =
      ((3 * 1 + 2 * 1 + 2 * frvp_alignment level role wv wp wvh fv fp fvh
        + 1 * (if tf == TF_4H then (1 : ℤ) else 0) : ℤ) : ℚ) * (10 / 12) := by
  unfold htf_strength_unrounded
  dsimp only
  rcases frvp_alignment_mem level role wv wp wvh fv fp fvh with h | h | h <;> rw [h] <;>
    split_ifs <;> norm_num

/-- With touches = 1 and volume_rating = 1, the rounded strength can only be
one of six values. -/
lemma htf_strength_mem (level : ℚ) (tf role : String) (wv wp wvh fv fp fvh : ℚ) :
    htf_strength level tf role wv wp wvh fv fp fvh = 4.2 ∨
    htf_strength level tf role wv wp wvh fv fp fvh = 5.0 ∨
    htf_strength level tf role wv wp wvh fv fp fvh = 5.8 ∨
    htf_strength level tf role wv wp wvh fv fp fvh = 6.7 ∨
    htf_strength level tf role wv wp wvh fv fp fvh = 7.5 ∨
    htf_strength level tf role wv wp wvh fv fp fvh = 8.3 := by
  unfold htf_strength
  rw [htf_strength_unrounded_eq]
  rcases frvp_alignment_mem level role wv wp wvh fv fp fvh with h | h | h <;> rw [h] <;>
    split_ifs <;> norm_num [round1, roundHalfEven]

lemma min_pct_support_eq (level wv wp wvh fv fp fvh : ℚ) :
    min_pct level ROLE_SUPPORT wv wp wvh fv fp fvh =
      min (min (min (pct_diff level wv) (pct_diff level wp)) (pct_diff level fv))
        (pct_diff level fp) := rfl

lemma min_pct_resistance_eq (level wv wp wvh fv fp fvh : ℚ) :
    min_pct level ROLE_RESISTANCE wv wp wvh fv fp fvh =
      min (min (min (pct_diff level wvh) (pct_diff level wp)) (pct_diff level fvh))
        (pct_diff level fp) := rfl

lemma structural_tag_4H : (if TF_4H == TF_4H then (1 : ℤ) else 0) = 1 := rfl

lemma structural_tag_1H : (if TF_1H == TF_4H then (1 : ℤ) else 0) = 0 := rfl

/-- With a band at least three minimum gaps wide and a minimum gap above one
tenth, the rounded band edges and triggers are strictly ordered. -/
lemma rounded_trigger_ordering (s r h4so h4do h1so h1do fv fp fvh mv mp mvh rh rl : ℚ)
    (hgap : 1/10 < min_gap_from_edges s r)
    (hband : s + 3 * min_gap_from_edges s r ≤ r) :
    round1 s < round1 ((build_triggers s r h4so h4do h1so h1do fv fp fvh mv mp mvh rh rl).1) ∧
    round1 ((build_triggers s r h4so h4do h1so h1do fv fp fvh mv mp mvh rh rl).1) <
      round1 ((build_triggers s r h4so h4do h1so h1do fv fp fvh mv mp mvh rh rl).2) ∧
    round1 ((build_triggers s r h4so h4do h1so h1do fv fp fvh mv mp mvh rh rl).2) < round1 r := by
  obtain ⟨x, y, hbt⟩ := build_triggers_spec s r h4so h4do h1so h1do fv fp fvh mv mp mvh rh rl
  rw [hbt]
  dsimp only
  have hA1 : s + min_gap_from_edges s r ≤
      max (s + min_gap_from_edges s r) (min x (r - 2 * min_gap_from_edges s r)) := le_max_left _ _
  have hA2 : max (s + min_gap_from_edges s r) (min x (r - 2 * min_gap_from_edges s r)) ≤
      r - 2 * min_gap_from_edges s r := max_le (by linarith) (min_le_right _ _)
  have hB1 : max (s + min_gap_from_edges s r) (min x (r - 2 * min_gap_from_edges s r)) + min_gap_from_edges s r ≤
      max (max (s + min_gap_from_edges s r) (min x (r - 2 * min_gap_from_edges s r)) + min_gap_from_edges s r)
        (min y (r - min_gap_from_edges s r)) := le_max_left _ _
  have hB2 : max (max (s + min_gap_from_edges s r) (min x (r - 2 * min_gap_from_edges s r)) + min_gap_from_edges s r)
        (min y (r - min_gap_from_edges s r)) ≤ r - min_gap_from_edges s r :=
    max_le (by linarith) (min_le_right _ _)
  exact ⟨round1_lt_round1 (by linarith), round1_lt_round1 (by linarith),
    round1_lt_round1 (by linarith)⟩

/-! ### Claims -/

/-- Claim C1 (amended): for every input whose selected daily band is wide
enough — daily_resistance − daily_support at least three minimum gaps and
min_gap above 0.1 — the four fields returned by compute_dm_levels satisfy
daily_support < breakdown_trigger < breakout_trigger < daily_resistance.
For narrower bands the clamp can push triggers past the band and the
one-decimal rounding can collapse adjacent fields (see the counterexample). -/
theorem c1_rounded_ordering (h4s h4d h1s h1d wv wp wvh fv fp fvh mv mp mvh rh rl : ℚ)
    (hgap : 1/10 < min_gap_from_edges (choose_daily_levels h4s h4d h1s h1d wv wp wvh fv fp fvh).1
      (choose_daily_levels h4s h4d h1s h1d wv wp wvh fv fp fvh).2.1)
    (hband : (choose_daily_levels h4s h4d h1s h1d wv wp wvh fv fp fvh).1 +
        3 * min_gap_from_edges (choose_daily_levels h4s h4d h1s h1d wv wp wvh fv fp fvh).1
          (choose_daily_levels h4s h4d h1s h1d wv wp wvh fv fp fvh).2.1 ≤
      (choose_daily_levels h4s h4d h1s h1d wv wp wvh fv fp fvh).2.1) :
    (compute_dm_levels h4s h4d h1s h1d wv wp wvh fv fp fvh mv mp mvh rh rl).daily_support <
      (compute_dm_levels h4s h4d h1s h1d wv wp wvh fv fp fvh mv mp mvh rh rl).breakdown_trigger ∧
    (compute_dm_levels h4s h4d h1s h1d wv wp wvh fv fp fvh mv mp mvh rh rl).breakdown_trigger <
      (compute_dm_levels h4s h4d h1s h1d wv wp wvh fv fp fvh mv mp mvh rh rl).breakout_trigger ∧
    (compute_dm_levels h4s h4d h1s h1d wv wp wvh fv fp fvh mv mp mvh rh rl).breakout_trigger <
      (compute_dm_levels h4s h4d h1s h1d wv wp wvh fv fp fvh mv mp mvh rh rl).daily_resistance := by
  obtain ⟨a, b, c⟩ := rounded_trigger_ordering
    (choose_daily_levels h4s h4d h1s h1d wv wp wvh fv fp fvh).1
    (choose_daily_levels h4s h4d h1s h1d wv wp wvh fv fp fvh).2.1
    h4s h4d h1s h1d fv fp fvh mv mp mvh rh rl hgap hband
  exact ⟨a, b, c⟩

/-- Counterexample to C1 as stated: at this input the four HTF shelf levels
are not all identical, yet the returned daily_support and breakdown_trigger
are both 0.0 (the unrounded values −0.02 and 0.03 collapse under one-decimal
rounding), so the strict ordering fails. -/
theorem c1_counterexample :
    ¬ ((0.98 : ℚ) = -0.02 ∧ (0.98 : ℚ) = 0.98 ∧ (0.98 : ℚ) = -0.02) ∧
    ¬ ((compute_dm_levels 0.98 (-0.02) 0.98 (-0.02) 0.5 0.5 0.5 0.5 0.5 0.5 0.5 0.5 0.5 0.5 0.5).daily_support <
       (compute_dm_levels 0.98 (-0.02) 0.98 (-0.02) 0.5 0.5 0.5 0.5 0.5 0.5 0.5 0.5 0.5 0.5 0.5).breakdown_trigger) := by
  have hps : pre_daily_support (-0.02) (-0.02) 0.5 0.5 0.5 0.5 0.5 0.5 = -0.02 := by
    unfold pre_daily_support
    split_ifs <;> rfl
  have hpr : pre_daily_resistance 0.98 0.98 0.5 0.5 0.5 0.5 0.5 0.5 = 0.98 := by
    unfold pre_daily_resistance
    split_ifs <;> rfl
  have hc1 : (choose_daily_levels 0.98 (-0.02) 0.98 (-0.02) 0.5 0.5 0.5 0.5 0.5 0.5).1 = -0.02 := by
    unfold choose_daily_levels
    dsimp only
    rw [hps, hpr]
    norm_num
  have hc2 : (choose_daily_levels 0.98 (-0.02) 0.98 (-0.02) 0.5 0.5 0.5 0.5 0.5 0.5).2.1 = 0.98 := by
    unfold choose_daily_levels
    dsimp only
    rw [hps, hpr]
    norm_num
  have e1 : (compute_dm_levels 0.98 (-0.02) 0.98 (-0.02) 0.5 0.5 0.5 0.5 0.5 0.5 0.5 0.5 0.5 0.5 0.5).daily_support =
      round1 (-0.02 : ℚ) := by
    show round1 ((choose_daily_levels 0.98 (-0.02) 0.98 (-0.02) 0.5 0.5 0.5 0.5 0.5 0.5).1) = _
    rw [hc1]
  have e3 : (compute_dm_levels 0.98 (-0.02) 0.98 (-0.02) 0.5 0.5 0.5 0.5 0.5 0.5 0.5 0.5 0.5 0.5 0.5).breakdown_trigger =
      round1 ((build_triggers (-0.02) 0.98 0.98 (-0.02) 0.98 (-0.02) 0.5 0.5 0.5 0.5 0.5 0.5 0.5 0.5).1) := by
    show round1 ((build_triggers (choose_daily_levels 0.98 (-0.02) 0.98 (-0.02) 0.5 0.5 0.5 0.5 0.5 0.5).1
      (choose_daily_levels 0.98 (-0.02) 0.98 (-0.02) 0.5 0.5 0.5 0.5 0.5 0.5).2.1
      0.98 (-0.02) 0.98 (-0.02) 0.5 0.5 0.5 0.5 0.5 0.5 0.5 0.5).1) = _
    rw [hc1, hc2]
  have hbt : (build_triggers (-0.02) 0.98 0.98 (-0.02) 0.98 (-0.02) 0.5 0.5 0.5 0.5 0.5 0.5 0.5 0.5).1 = 0.03 := by
    unfold build_triggers
    dsimp only
    norm_num [min_gap_from_edges, span_of, min_def, max_def]
  refine ⟨by norm_num, ?_⟩
  rw [e1, e3, hbt]
  norm_num [round1, roundHalfEven]

/-- Witness for C1 at scenario A: a 90/110 band with minimum gap 1. -/
theorem c1_witness :
    (compute_dm_levels 110 90 108 92 89 95 109 91 96 107 93 97 105 100 98).daily_support <
      (compute_dm_levels 110 90 108 92 89 95 109 91 96 107 93 97 105 100 98).breakdown_trigger ∧
    (compute_dm_levels 110 90 108 92 89 95 109 91 96 107 93 97 105 100 98).breakdown_trigger <
      (compute_dm_levels 110 90 108 92 89 95 109 91 96 107 93 97 105 100 98).breakout_trigger ∧
    (compute_dm_levels 110 90 108 92 89 95 109 91 96 107 93 97 105 100 98).breakout_trigger <
      (compute_dm_levels 110 90 108 92 89 95 109 91 96 107 93 97 105 100 98).daily_resistance := by
  have ha1 : frvp_alignment 90 ROLE_SUPPORT 89 95 109 91 96 107 = 0 := by
    unfold frvp_alignment
    rw [min_pct_support_eq]
    norm_num [pct_diff_big]
  have ha2 : frvp_alignment 92 ROLE_SUPPORT 89 95 109 91 96 107 = 0 := by
    unfold frvp_alignment
    rw [min_pct_support_eq]
    norm_num [pct_diff_big]
  have ha3 : frvp_alignment 110 ROLE_RESISTANCE 89 95 109 91 96 107 = 0 := by
    unfold frvp_alignment
    rw [min_pct_resistance_eq]
    norm_num [pct_diff_big]
  have ha4 : frvp_alignment 108 ROLE_RESISTANCE 89 95 109 91 96 107 = 0 := by
    unfold frvp_alignment
    rw [min_pct_resistance_eq]
    norm_num [pct_diff_big]
  have hs4 : s4h_strength 90 89 95 109 91 96 107 = 5 := by
    unfold s4h_strength htf_strength
    rw [htf_strength_unrounded_eq, ha1, structural_tag_4H]
    norm_num [round1, roundHalfEven]
  have hs1 : s1h_strength 92 89 95 109 91 96 107 = 4.2 := by
    unfold s1h_strength htf_strength
    rw [htf_strength_unrounded_eq, ha2, structural_tag_1H]
    norm_num [round1, roundHalfEven]
  have hr4 : r4h_strength 110 89 95 109 91 96 107 = 5 := by
    unfold r4h_strength htf_strength
    rw [htf_strength_unrounded_eq, ha3, structural_tag_4H]
    norm_num [round1, roundHalfEven]
  have hr1 : r1h_strength 108 89 95 109 91 96 107 = 4.2 := by
    unfold r1h_strength htf_strength
    rw [htf_strength_unrounded_eq, ha4, structural_tag_1H]
    norm_num [round1, roundHalfEven]
  have hps : pre_daily_support 90 92 89 95 109 91 96 107 = 90 := by
    unfold pre_daily_support
    rw [hs4, hs1]
    norm_num
  have hpr : pre_daily_resistance 110 108 89 95 109 91 96 107 = 110 := by
    unfold pre_daily_resistance
    rw [hr4, hr1]
    norm_num
  have hc1 : (choose_daily_levels 110 90 108 92 89 95 109 91 96 107).1 = 90 := by
    unfold choose_daily_levels
    dsimp only
    rw [hps, hpr]
    norm_num
  have hc2 : (choose_daily_levels 110 90 108 92 89 95 109 91 96 107).2.1 = 110 := by
    unfold choose_daily_levels
    dsimp only
    rw [hps, hpr]
    norm_num
  refine c1_rounded_ordering 110 90 108 92 89 95 109 91 96 107 93 97 105 100 98 ?_ ?_
  · rw [hc1, hc2]
    norm_num [min_gap_from_edges, span_of, min_def, max_def]
  · rw [hc1, hc2]
    norm_num [min_gap_from_edges, span_of, min_def, max_def]

/-- Claim C2 (amended): for every input, whenever the strength-selected
support is ≥ the strength-selected resistance, the final levels are replaced
by min(h4_demand, h1_demand) and max(h4_supply, h1_supply) while the returned
shelf records are the originally computed ones; and whenever additionally
min(h4_demand, h1_demand) < max(h4_supply, h1_supply) — rather than the
claimed "four HTF levels not all equal" — the selection returns
daily_support < daily_resistance. -/
theorem c2_fallback_safety (h4s h4d h1s h1d wv wp wvh fv fp fvh : ℚ) :
    (pre_daily_support h4d h1d wv wp wvh fv fp fvh ≥ pre_daily_resistance h4s h1s wv wp wvh fv fp fvh →
      (choose_daily_levels h4s h4d h1s h1d wv wp wvh fv fp fvh).1 = min h4d h1d ∧
      (choose_daily_levels h4s h4d h1s h1d wv wp wvh fv fp fvh).2.1 = max h4s h1s) ∧
    (choose_daily_levels h4s h4d h1s h1d wv wp wvh fv fp fvh).2.2.1 =
      htf_resistance_shelves h4s h1s wv wp wvh fv fp fvh ∧
    (choose_daily_levels h4s h4d h1s h1d wv wp wvh fv fp fvh).2.2.2 =
      htf_support_shelves h4d h1d wv wp wvh fv fp fvh ∧
    (min h4d h1d < max h4s h1s →
      (choose_daily_levels h4s h4d h1s h1d wv wp wvh fv fp fvh).1 <
        (choose_daily_levels h4s h4d h1s h1d wv wp wvh fv fp fvh).2.1) := by
  obtain ⟨hr, hs⟩ := choose_shelves_eq h4s h4d h1s h1d wv wp wvh fv fp fvh
  refine ⟨?_, hr, hs, ?_⟩
  · unfold choose_daily_levels
    dsimp only
    split_ifs with h
    · exact fun _ => ⟨rfl, rfl⟩
    · exact fun hc => absurd hc h
  · unfold choose_daily_levels
    dsimp only
    split_ifs with h
    · exact fun hne => hne
    · exact fun _ => lt_of_not_ge h

/-- Counterexample to C2 as stated: with both demand shelves at 5 and both
supply shelves at 3 the four HTF levels are not all equal, the fallback
fires, and the final levels are support 5, resistance 3 — not
support < resistance. -/
theorem c2_counterexample :
    ¬ ((3 : ℚ) = 5 ∧ (3 : ℚ) = 3 ∧ (3 : ℚ) = 5) ∧
    ¬ ((choose_daily_levels 3 5 3 5 0 0 0 0 0 0).1 < (choose_daily_levels 3 5 3 5 0 0 0 0 0 0).2.1) := by
  have hps : pre_daily_support 5 5 0 0 0 0 0 0 = 5 := by
    unfold pre_daily_support
    split_ifs <;> rfl
  have hpr : pre_daily_resistance 3 3 0 0 0 0 0 0 = 3 := by
    unfold pre_daily_resistance
    split_ifs <;> rfl
  have h1 : (choose_daily_levels 3 5 3 5 0 0 0 0 0 0).1 = 5 := by
    unfold choose_daily_levels
    dsimp only
    rw [hps, hpr]
    norm_num
  have h2 : (choose_daily_levels 3 5 3 5 0 0 0 0 0 0).2.1 = 3 := by
    unfold choose_daily_levels
    dsimp only
    rw [hps, hpr]
    norm_num
  refine ⟨by norm_num, ?_⟩
  rw [h1, h2]
  norm_num

/-- Witness for C2: demands 5/5 and supplies 3/7 invert the strength-based
selection, the fallback fires and still yields support 5 < resistance 7. -/
theorem c2_witness :
    (choose_daily_levels 3 5 7 5 0 0 0 0 0 0).1 < (choose_daily_levels 3 5 7 5 0 0 0 0 0 0).2.1 :=
  (c2_fallback_safety 3 5 7 5 0 0 0 0 0 0).2.2.2 (by norm_num [min_def, max_def])

/-- Modelled from the claim's reference definition (spec §4.1): relative
distance with denominator max(|ref|, 1.0). -/
def pct_diff_claimref (a b : ℚ) : ℚ := |a - b| / max |b| 1

/-- The claim's reference alignment score: the role-dependent four-reference
minimum of pct_diff_claimref, thresholded at 0.0015 and 0.0030. -/
def frvp_alignment_claimref (level : ℚ) (role : String) (wv wp wvh fv fp fvh : ℚ) : ℤ :=
  let m := if role == ROLE_RESISTANCE then
      min (min (pct_diff_claimref level wvh) (pct_diff_claimref level wp))
        (min (pct_diff_claimref level fvh) (pct_diff_claimref level fp))
    else
      min (min (pct_diff_claimref level wv) (pct_diff_claimref level wp))
        (min (pct_diff_claimref level fv) (pct_diff_claimref level fp))
  if m ≤ 0.0015 then 2
  else if m ≤ 0.0030 then 1
  else 0

/-- The amended reference definition: as the claim's, but with the code's
denominator — |ref| whenever |ref| > 1e-9, and 1.0 only as the near-zero
fallback. -/
def frvp_alignment_ref (level : ℚ) (role : String) (wv wp wvh fv fp fvh : ℚ) : ℤ :=
  let d := fun b : ℚ => |level - b| / (if |b| > 1/1000000000 then |b| else 1)
  let m := if role == ROLE_RESISTANCE then
      min (min (d wvh) (d wp)) (min (d fvh) (d fp))
    else
      min (min (d wv) (d wp)) (min (d fv) (d fp))
  if m ≤ 0.0015 then 2
  else if m ≤ 0.0030 then 1
  else 0

lemma claimref_support_eq (level wv wp wvh fv fp fvh : ℚ) :
    frvp_alignment_claimref level ROLE_SUPPORT wv wp wvh fv fp fvh =
      (if min (min (pct_diff_claimref level wv) (pct_diff_claimref level wp))
          (min (pct_diff_claimref level fv) (pct_diff_claimref level fp)) ≤ 0.0015 then 2
       else if min (min (pct_diff_claimref level wv) (pct_diff_claimref level wp))
          (min (pct_diff_claimref level fv) (pct_diff_claimref level fp)) ≤ 0.0030 then 1
       else 0) := rfl

/-- Claim C3 (amended): the alignment score equals the reference definition
in which d(level, ref) = |level − ref| / (|ref| if |ref| > 1e-9 else 1.0) —
the code divides by the reference's magnitude whenever it exceeds 1e-9, not
by max(|ref|, 1.0) as the claim stated. -/
theorem c3_alignment_reference (level : ℚ) (role : String) (wv wp wvh fv fp fvh : ℚ) :
    frvp_alignment level role wv wp wvh fv fp fvh =
      frvp_alignment_ref level role wv wp wvh fv fp fvh := by
  unfold frvp_alignment frvp_alignment_ref min_pct pct_diff
  dsimp only
  have hm : ∀ a b c d : ℚ, min (min (min a b) c) d = min (min a b) (min c d) :=
    fun a b c d => min_assoc (min a b) c d
  rw [hm, hm]

/-- Counterexample to C3 as stated: at level 0.501 against a support
reference of 0.5, the code's score is 1 (relative distance 0.002 over the
denominator 0.5) while the claimed max(|ref|, 1.0) denominator gives 0.001
and score 2. -/
theorem c3_counterexample :
    frvp_alignment 0.501 ROLE_SUPPORT 0.5 100 100 100 100 100 = 1 ∧
    frvp_alignment_claimref 0.501 ROLE_SUPPORT 0.5 100 100 100 100 100 = 2 := by
  have k1 : pct_diff 0.501 0.5 = 0.002 := by
    rw [pct_diff_big 0.501 0.5 (by norm_num [abs_of_nonneg])]
    norm_num [abs_of_nonneg]
  have k2 : pct_diff 0.501 100 = 99499/100000 := by
    rw [pct_diff_big 0.501 100 (by norm_num [abs_of_nonneg])]
    norm_num [abs_of_nonneg, abs_of_nonpos]
  have m1 : pct_diff_claimref 0.501 0.5 = 0.001 := by
    unfold pct_diff_claimref
    rw [show |(0.5 : ℚ)| = 0.5 by norm_num, max_eq_right (by norm_num : (0.5 : ℚ) ≤ 1)]
    norm_num [abs_of_nonneg]
  have m2 : pct_diff_claimref 0.501 100 = 99499/100000 := by
    unfold pct_diff_claimref
    rw [show |(100 : ℚ)| = 100 by norm_num, max_eq_left (by norm_num : (1 : ℚ) ≤ 100)]
    norm_num [abs_of_nonneg, abs_of_nonpos]
  constructor
  · unfold frvp_alignment
    rw [min_pct_support_eq, k1, k2]
    norm_num
  · rw [claimref_support_eq, m1, m2]
    norm_num

/-- Claim C4: for every level, timeframe, role and reference marks, the shelf
strength equals raw * (10/12) clamped to [0, 10] and rounded to one decimal,
where raw = 3*1 + 2*1 + 2*alignmentScore + 1*structuralTag and the structural
tag is 1 exactly for the 4H timeframe; the result lies in [0, 10] and is a
multiple of one tenth. -/
theorem c4_strength_formula (level : ℚ) (tf role : String) (wv wp wvh fv fp fvh : ℚ) :
    htf_strength level tf role wv wp wvh fv fp fvh =
      round1 (max 0 (min 10
        (((3 * 1 + 2 * 1 + 2 * frvp_alignment level role wv wp wvh fv fp fvh
          + 1 * (if tf == TF_4H then (1 : ℤ) else 0) : ℤ) : ℚ) * (10 / 12)))) ∧
    0 ≤ htf_strength level tf role wv wp wvh fv fp fvh ∧
    htf_strength level tf role wv wp wvh fv fp fvh ≤ 10 ∧
    ∃ n : ℤ, htf_strength level tf role wv wp wvh fv fp fvh = (n : ℚ) / 10 := by
  refine ⟨rfl, ?_, ?_, ?_⟩
  · rcases htf_strength_mem level tf role wv wp wvh fv fp fvh with h | h | h | h | h | h <;>
      rw [h] <;> norm_num
  · rcases htf_strength_mem level tf role wv wp wvh fv fp fvh with h | h | h | h | h | h <;>
      rw [h] <;> norm_num
  · rcases htf_strength_mem level tf role wv wp wvh fv fp fvh with h | h | h | h | h | h <;> rw [h]
    exacts [⟨42, by norm_num⟩, ⟨50, by norm_num⟩, ⟨58, by norm_num⟩,
      ⟨67, by norm_num⟩, ⟨75, by norm_num⟩, ⟨83, by norm_num⟩]

/-- Claim C6: the alignment score is monotone in the engine's distance to the
nearest reference mark (the minimum relative distance min_pct): a level whose
minimum relative distance is no larger never scores lower, which yields both
directions of the claim (strictly closer never decreases the score, strictly
farther never increases it). -/
theorem c6_alignment_monotone (role : String) (wv wp wvh fv fp fvh L Lc : ℚ)
    (h : min_pct Lc role wv wp wvh fv fp fvh ≤ min_pct L role wv wp wvh fv fp fvh) :
    frvp_alignment L role wv wp wvh fv fp fvh ≤ frvp_alignment Lc role wv wp wvh fv fp fvh := by
  unfold frvp_alignment
  dsimp only
  split_ifs <;> try norm_num
  all_goals linarith

/-- Witness for C6 at a concrete input: the level 100 sits exactly on every
support reference (distance 0) while 150 is 50% away, and the score rises
from 0 to 2. -/
theorem c6_witness :
    frvp_alignment 150 ROLE_SUPPORT 100 100 100 100 100 100 ≤
      frvp_alignment 100 ROLE_SUPPORT 100 100 100 100 100 100 :=
  c6_alignment_monotone ROLE_SUPPORT 100 100 100 100 100 100 150 100 (by
    unfold min_pct
    norm_num [ROLE_SUPPORT, ROLE_RESISTANCE, pct_diff_big])

/-- Claim C8: the engine is deterministic; in this pure embedding two calls
on identical inputs are definitionally the same output. -/
theorem c8_deterministic (h4s h4d h1s h1d wv wp wvh fv fp fvh mv mp mvh rh rl : ℚ) :
    compute_dm_levels h4s h4d h1s h1d wv wp wvh fv fp fvh mv mp mvh rh rl =
      compute_dm_levels h4s h4d h1s h1d wv wp wvh fv fp fvh mv mp mvh rh rl := rfl

/-- Claim C9: for every input (the all-equal boundary case included) the
unrounded triggers keep a gap of at least min_gap below the breakdown and
between the two triggers, min_gap = max(span·0.05, support·0.0015) with
span = max(resistance − support, 1) is at least 0.05, and therefore
support < breakdown < breakout strictly. -/
theorem c9_trigger_spacing (s r h4s h4d h1s h1d fv fp fvh mv mp mvh rh rl : ℚ) :
    min_gap_from_edges s r = max (max (r - s) 1 * 0.05) (s * 0.0015) ∧
    1/20 ≤ min_gap_from_edges s r ∧
    s + min_gap_from_edges s r ≤ (build_triggers s r h4s h4d h1s h1d fv fp fvh mv mp mvh rh rl).1 ∧
    (build_triggers s r h4s h4d h1s h1d fv fp fvh mv mp mvh rh rl).1 + min_gap_from_edges s r ≤
      (build_triggers s r h4s h4d h1s h1d fv fp fvh mv mp mvh rh rl).2 ∧
    s < (build_triggers s r h4s h4d h1s h1d fv fp fvh mv mp mvh rh rl).1 ∧
    (build_triggers s r h4s h4d h1s h1d fv fp fvh mv mp mvh rh rl).1 <
      (build_triggers s r h4s h4d h1s h1d fv fp fvh mv mp mvh rh rl).2 := by
  obtain ⟨x, y, hbt⟩ := build_triggers_spec s r h4s h4d h1s h1d fv fp fvh mv mp mvh rh rl
  have hg := min_gap_ge s r
  rw [hbt]
  dsimp only
  refine ⟨rfl, hg, le_max_left _ _, le_max_left _ _, ?_, ?_⟩
  · have h1 := le_max_left (s + min_gap_from_edges s r) (min x (r - 2 * min_gap_from_edges s r))
    linarith
  · have h2 := le_max_left
      (max (s + min_gap_from_edges s r) (min x (r - 2 * min_gap_from_edges s r)) + min_gap_from_edges s r)
      (min y (r - min_gap_from_edges s r))
    linarith

/-- Claim C10: with the fixed placeholder factors the strength takes only the
six values 4.2, 5.0, 5.8, 6.7, 7.5, 8.3, hence lies in [4.2, 8.3], and the
clamp to [0, 10] is never active (the unrounded strength already equals
raw·(10/12)). -/
theorem c10_strength_values (level : ℚ) (tf role : String) (wv wp wvh fv fp fvh : ℚ) :
    (htf_strength level tf role wv wp wvh fv fp fvh = 4.2 ∨
     htf_strength level tf role wv wp wvh fv fp fvh = 5.0 ∨
     htf_strength level tf role wv wp wvh fv fp fvh = 5.8 ∨
     htf_strength level tf role wv wp wvh fv fp fvh = 6.7 ∨
     htf_strength level tf role wv wp wvh fv fp fvh = 7.5 ∨
     htf_strength level tf role wv wp wvh fv fp fvh = 8.3) ∧
    4.2 ≤ htf_strength level tf role wv wp wvh fv fp fvh ∧
    htf_strength level tf role wv wp wvh fv fp fvh ≤ 8.3 ∧
    htf_strength_unrounded level tf role wv wp wvh fv fp fvh =
      ((3 * 1 + 2 * 1 + 2 * frvp_alignment level role wv wp wvh fv fp fvh
        + 1 * (if tf == TF_4H then (1 : ℤ) else 0) : ℤ) : ℚ) * (10 / 12) := by
  refine ⟨htf_strength_mem level tf role wv wp wvh fv fp fvh, ?_, ?_,
    htf_strength_unrounded_eq level tf role wv wp wvh fv fp fvh⟩
  · rcases htf_strength_mem level tf role wv wp wvh fv fp fvh with h | h | h | h | h | h <;>
      rw [h] <;> norm_num
  · rcases htf_strength_mem level tf role wv wp wvh fv fp fvh with h | h | h | h | h | h <;>
      rw [h] <;> norm_num

/-- Claim C5: on each role's side exactly one of the two returned shelves is
primary, and whenever the 4H and 1H strengths are exactly equal the 4H shelf
is selected as primary (the comparison is ≥) and its level becomes the
strength-selected, pre-fallback daily level for that role. -/
theorem c5_primary_tie_break (h4s h4d h1s h1d wv wp wvh fv fp fvh : ℚ) :
    ((choose_daily_levels h4s h4d h1s h1d wv wp wvh fv fp fvh).2.2.2.map Shelf.primary = [true, false] ∨
     (choose_daily_levels h4s h4d h1s h1d wv wp wvh fv fp fvh).2.2.2.map Shelf.primary = [false, true]) ∧
    ((choose_daily_levels h4s h4d h1s h1d wv wp wvh fv fp fvh).2.2.1.map Shelf.primary = [true, false] ∨
     (choose_daily_levels h4s h4d h1s h1d wv wp wvh fv fp fvh).2.2.1.map Shelf.primary = [false, true]) ∧
    (s4h_strength h4d wv wp wvh fv fp fvh = s1h_strength h1d wv wp wvh fv fp fvh →
      (choose_daily_levels h4s h4d h1s h1d wv wp wvh fv fp fvh).2.2.2.map Shelf.primary = [true, false] ∧
      pre_daily_support h4d h1d wv wp wvh fv fp fvh = h4d) ∧
    (r4h_strength h4s wv wp wvh fv fp fvh = r1h_strength h1s wv wp wvh fv fp fvh →
      (choose_daily_levels h4s h4d h1s h1d wv wp wvh fv fp fvh).2.2.1.map Shelf.primary = [true, false] ∧
      pre_daily_resistance h4s h1s wv wp wvh fv fp fvh = h4s) := by
  obtain ⟨hr, hs⟩ := choose_shelves_eq h4s h4d h1s h1d wv wp wvh fv fp fvh
  rw [hr, hs]
  unfold htf_support_shelves htf_resistance_shelves primary_support_tf primary_res_tf
    pre_daily_support pre_daily_resistance
  split_ifs with hS hR hR
  · exact ⟨Or.inl (by simp [TF_4H, TF_1H]), Or.inl (by simp [TF_4H, TF_1H]),
      fun _ => ⟨by simp [TF_4H, TF_1H], rfl⟩, fun _ => ⟨by simp [TF_4H, TF_1H], rfl⟩⟩
  · exact ⟨Or.inl (by simp [TF_4H, TF_1H]), Or.inr (by simp [TF_4H, TF_1H]),
      fun _ => ⟨by simp [TF_4H, TF_1H], rfl⟩, fun heq => absurd heq.ge hR⟩
  · exact ⟨Or.inr (by simp [TF_4H, TF_1H]), Or.inl (by simp [TF_4H, TF_1H]),
      fun heq => absurd heq.ge hS, fun _ => ⟨by simp [TF_4H, TF_1H], rfl⟩⟩
  · exact ⟨Or.inr (by simp [TF_4H, TF_1H]), Or.inr (by simp [TF_4H, TF_1H]),
      fun heq => absurd heq.ge hS, fun heq => absurd heq.ge hR⟩

/-- Claim C7: each scalar output field of compute_dm_levels is the one-decimal
rounding of the corresponding unrounded internal value (the selected levels
and the triggers built from them), each returned shelf strength is the
one-decimal rounding of the unrounded strength, and 25/3 = 8.333... rounds
to 8.3. -/
theorem c7_rounding (h4s h4d h1s h1d wv wp wvh fv fp fvh mv mp mvh rh rl : ℚ) :
    (compute_dm_levels h4s h4d h1s h1d wv wp wvh fv fp fvh mv mp mvh rh rl).daily_support =
      round1 ((choose_daily_levels h4s h4d h1s h1d wv wp wvh fv fp fvh).1) ∧
    (compute_dm_levels h4s h4d h1s h1d wv wp wvh fv fp fvh mv mp mvh rh rl).daily_resistance =
      round1 ((choose_daily_levels h4s h4d h1s h1d wv wp wvh fv fp fvh).2.1) ∧
    (compute_dm_levels h4s h4d h1s h1d wv wp wvh fv fp fvh mv mp mvh rh rl).breakdown_trigger =
      round1 ((build_triggers (choose_daily_levels h4s h4d h1s h1d wv wp wvh fv fp fvh).1
        (choose_daily_levels h4s h4d h1s h1d wv wp wvh fv fp fvh).2.1
        h4s h4d h1s h1d fv fp fvh mv mp mvh rh rl).1) ∧
    (compute_dm_levels h4s h4d h1s h1d wv wp wvh fv fp fvh mv mp mvh rh rl).breakout_trigger =
      round1 ((build_triggers (choose_daily_levels h4s h4d h1s h1d wv wp wvh fv fp fvh).1
        (choose_daily_levels h4s h4d h1s h1d wv wp wvh fv fp fvh).2.1
        h4s h4d h1s h1d fv fp fvh mv mp mvh rh rl).2) ∧
    (compute_dm_levels h4s h4d h1s h1d wv wp wvh fv fp fvh mv mp mvh rh rl).htf_support.map Shelf.strength =
      [round1 (htf_strength_unrounded h4d TF_4H ROLE_SUPPORT wv wp wvh fv fp fvh),
       round1 (htf_strength_unrounded h1d TF_1H ROLE_SUPPORT wv wp wvh fv fp fvh)] ∧
    (compute_dm_levels h4s h4d h1s h1d wv wp wvh fv fp fvh mv mp mvh rh rl).htf_resistance.map Shelf.strength =
      [round1 (htf_strength_unrounded h4s TF_4H ROLE_RESISTANCE wv wp wvh fv fp fvh),
       round1 (htf_strength_unrounded h1s TF_1H ROLE_RESISTANCE wv wp wvh fv fp fvh)] ∧
    round1 (25/3) = 8.3 := by
  obtain ⟨hr, hs⟩ := choose_shelves_eq h4s h4d h1s h1d wv wp wvh fv fp fvh
  refine ⟨rfl, rfl, rfl, rfl, ?_, ?_, by norm_num [round1, roundHalfEven]⟩
  · show ((choose_daily_levels h4s h4d h1s h1d wv wp wvh fv fp fvh).2.2.2).map Shelf.strength = _
    rw [hs]
    rfl
  · show ((choose_daily_levels h4s h4d h1s h1d wv wp wvh fv fp fvh).2.2.1).map Shelf.strength = _
    rw [hr]
    rfl

end KTBB
